import Mathlib

/-!
Verification development for the LinuxCNC gamepad shim
(`game_controller.py`).

The shim reads an evdev game controller and republishes its inputs as
HAL pins.  We give a shallow embedding of the arithmetic core
(`_scale_axis`, `_scale_trigger`, `_apply_deadzone`,
`_update_jog_outputs`, `_reset`, `_find_device`) and of the main event
loop (`run`) as a step function on an explicit state, with floating
point modelled by exact rationals.  Event codes are the Linux evdev
constants used by the source.
-/

namespace GamepadShim

/-! ### evdev constants used by the source -/

abbrev ABS_X : Nat := 0
abbrev ABS_Y : Nat := 1
abbrev ABS_Z : Nat := 2
abbrev ABS_RX : Nat := 3
abbrev ABS_RY : Nat := 4
abbrev ABS_RZ : Nat := 5
abbrev ABS_HAT0X : Nat := 16
abbrev ABS_HAT0Y : Nat := 17

abbrev BTN_SOUTH : Nat := 304
abbrev BTN_EAST : Nat := 305
abbrev BTN_NORTH : Nat := 307
abbrev BTN_WEST : Nat := 308
abbrev BTN_TL : Nat := 310
abbrev BTN_TR : Nat := 311
abbrev BTN_SELECT : Nat := 314
abbrev BTN_START : Nat := 315
abbrev BTN_THUMBL : Nat := 317
abbrev BTN_THUMBR : Nat := 318

/-! ### Data model -/

/-- The published HAL output pins: 6 analog values, 3 jog values, the
connection flag and 14 button/d-pad booleans (`__init__`, lines 34-55). -/
@[ext]
structure PinState where
  lx : ℚ
  ly : ℚ
  rx : ℚ
  ry : ℚ
  lt : ℚ
  rt : ℚ
  jog_x : ℚ
  jog_y : ℚ
  jog_z : ℚ
  connected : Bool
  a : Bool
  b : Bool
  x : Bool
  y : Bool
  lb : Bool
  rb : Bool
  back : Bool
  start : Bool
  ls : Bool
  rs : Bool
  up : Bool
  down : Bool
  left : Bool
  right : Bool
deriving DecidableEq

/-- All pins at their safe defaults: floats 0.0, booleans false. -/
def defaultPins : PinState :=
  { lx := 0, ly := 0, rx := 0, ry := 0, lt := 0, rt := 0
    jog_x := 0, jog_y := 0, jog_z := 0
    connected := false
    a := false, b := false, x := false, y := false
    lb := false, rb := false, back := false, start := false
    ls := false, rs := false
    up := false, down := false, left := false, right := false }

/-- The full component state: output pins, the HAL parameters
(`deadzone`, `vendor`, `product`), the cached raw stick/trigger values
`_lx`, `_ly`, `_ry`, `_rt` and the axis range cache `_axis_info`
(an association list from evdev code to (min, max)). -/
@[ext]
structure ShimState where
  pins : PinState
  deadzone : ℚ
  vendor : ℤ
  product : ℤ
  ilx : ℚ
  ily : ℚ
  iry : ℚ
  irt : ℚ
  axis_info : List (Nat × ℤ × ℤ)
deriving DecidableEq

/-! ### Value scaling (`_scale_axis`, `_scale_trigger`, `_apply_deadzone`) -/

/-- Model of `self._axis_info.get(code)`: first binding of `code` in the table. -/
def lookupAxis (table : List (Nat × ℤ × ℤ)) (code : Nat) : Option (ℤ × ℤ) :=
  match table.find? (fun e => e.1 == code) with
  | none => none
  | some e => some e.2

/-- Model of `_scale_axis`: scale a raw axis value to −1.0 … 1.0 using the
device-reported range; unknown or degenerate axes give 0.0. -/
def scale_axis (table : List (Nat × ℤ × ℤ)) (code : Nat) (raw : ℤ) : ℚ :=
  match lookupAxis table code with
  | none => 0
  | some (lo, hi) =>
    if hi = lo then 0
    else 2 * ((raw : ℚ) - (lo : ℚ)) / ((hi : ℚ) - (lo : ℚ)) - 1

/-- Model of `_scale_trigger`: scale a raw trigger value to 0.0 … 1.0 using the
device-reported range; unknown or degenerate axes give 0.0. -/
def scale_trigger (table : List (Nat × ℤ × ℤ)) (code : Nat) (raw : ℤ) : ℚ :=
  match lookupAxis table code with
  | none => 0
  | some (lo, hi) =>
    if hi = lo then 0
    else ((raw : ℚ) - (lo : ℚ)) / ((hi : ℚ) - (lo : ℚ))

/-- Model of `_apply_deadzone`: 0.0 inside the deadzone, otherwise rescaled so the
output ramps from 0 at the deadzone edge to ±1. -/
def apply_deadzone (dz value : ℚ) : ℚ :=
  if |value| < dz then 0
  else (if value > 0 then (1 : ℚ) else -1) * (|value| - dz) / (1 - dz)

/-! ### Jog outputs and reset -/

/-- Model of `_update_jog_outputs`: combine cached stick values with the cached
right trigger for the three jog pins. -/
def update_jog_outputs (s : ShimState) : ShimState :=
  { s with pins :=
    { s.pins with
      jog_x := apply_deadzone s.deadzone s.ilx * s.irt
      jog_y := apply_deadzone s.deadzone s.ily * s.irt
      jog_z := apply_deadzone s.deadzone s.iry * s.irt } }

/-- Model of `_reset`: zero every output pin and the cached raw values, and clear
the connection flag.  The HAL parameters are not pins and keep their
values; the axis range cache is not touched by `_reset`. -/
def reset (s : ShimState) : ShimState :=
  { s with pins := defaultPins, ilx := 0, ily := 0, iry := 0, irt := 0 }

/-! ### Event handling (the `run` loop body) -/

/-- A decoded evdev event: an absolute-axis movement or a key/button
transition, with its code and value. -/
inductive Ev where
  | abs (code : Nat) (value : ℤ)
  | key (code : Nat) (value : ℤ)
deriving DecidableEq

/-- Dispatch of `BUTTON_MAP` for an `EV_KEY` event: set the mapped boolean
pin to the truthiness of the event value; unmapped codes are ignored. -/
def button_pin_update (p : PinState) (code : Nat) (pressed : Bool) : PinState :=
  if code = BTN_SOUTH then { p with a := pressed }
  else if code = BTN_EAST then { p with b := pressed }
  else if code = BTN_NORTH then { p with x := pressed }
  else if code = BTN_WEST then { p with y := pressed }
  else if code = BTN_TL then { p with lb := pressed }
  else if code = BTN_TR then { p with rb := pressed }
  else if code = BTN_SELECT then { p with back := pressed }
  else if code = BTN_START then { p with start := pressed }
  else if code = BTN_THUMBL then { p with ls := pressed }
  else if code = BTN_THUMBR then { p with rs := pressed }
  else p

/-- One iteration of the event dispatch in `run` (lines 210-246):
`EV_ABS` events route through the axis code chain, updating the pin and
(for lx/ly/ry/rt) the cached raw value, d-pad hat codes drive the two
direction booleans of their axis, and every `EV_ABS` event ends with
`_update_jog_outputs`; `EV_KEY` events go through `BUTTON_MAP`. -/
def handle_event (s : ShimState) : Ev → ShimState
  | .abs code v =>
    update_jog_outputs <|
      if code = ABS_X then
        { s with ilx := scale_axis s.axis_info code v
                 pins := { s.pins with lx := scale_axis s.axis_info code v } }
      else if code = ABS_Y then
        { s with ily := -scale_axis s.axis_info code v
                 pins := { s.pins with ly := -scale_axis s.axis_info code v } }
      else if code = ABS_RX then
        { s with pins := { s.pins with rx := scale_axis s.axis_info code v } }
      else if code = ABS_RY then
        { s with iry := -scale_axis s.axis_info code v
                 pins := { s.pins with ry := -scale_axis s.axis_info code v } }
      else if code = ABS_Z then
        { s with pins := { s.pins with lt := scale_trigger s.axis_info code v } }
      else if code = ABS_RZ then
        { s with irt := scale_trigger s.axis_info code v
                 pins := { s.pins with rt := scale_trigger s.axis_info code v } }
      else if code = ABS_HAT0X then
        { s with pins := { s.pins with right := v == 1, left := v == -1 } }
      else if code = ABS_HAT0Y then
        { s with pins := { s.pins with down := v == 1, up := v == -1 } }
      else s
  | .key code v =>
    { s with pins := button_pin_update s.pins code (v != 0) }

/-! ### Device discovery (`_find_device`) -/

/-- An enumerable input device as seen through the evdev boundary:
whether opening/querying it raises, its vendor/product identity, and
its `EV_ABS` capabilities (`none` when `EV_ABS` is not in the caps). -/
structure RawDevice where
  opens : Bool
  vendor : ℤ
  product : ℤ
  caps_abs : Option (List (Nat × ℤ × ℤ))
deriving DecidableEq

/-- Model of `_find_device`: scan the device list in order; skip devices that
fail to open, that miss a nonzero vendor/product filter, or that lack
`EV_ABS` capability; return the first match together with the freshly
built axis range table. -/
def find_device (vid pid : ℤ) : List RawDevice → Option (RawDevice × List (Nat × ℤ × ℤ))
  | [] => none
  | d :: rest =>
    if d.opens = false then find_device vid pid rest
    else if vid ≠ 0 ∧ d.vendor ≠ vid then find_device vid pid rest
    else if pid ≠ 0 ∧ d.product ≠ pid then find_device vid pid rest
    else
      match d.caps_abs with
      | none => find_device vid pid rest
      | some axes => some (d, axes)

/-! ### The session state machine (`run`) -/

/-- The two phases of the device session manager. -/
inductive Phase where
  | scanning
  | connected
deriving DecidableEq

/-- Whole-system configuration: session phase plus component state. -/
structure Sys where
  phase : Phase
  st : ShimState
deriving DecidableEq

/-- External stimuli driving one iteration of `run`: a discovery attempt
over the currently enumerable devices, a `select` timeout, a batch of
read events, an I/O failure, or an external write to a HAL parameter. -/
inductive WEvent where
  | scan (devs : List RawDevice)
  | timeout
  | batch (es : List Ev)
  | ioError
  | setDeadzone (d : ℚ)
  | setVendor (v : ℤ)
  | setProduct (p : ℤ)

/-- One step of the `run` loop.  While scanning, a failed discovery
resets and retries, a successful one installs the axis table and sets
`connected`.  While connected, a timeout refreshes the jog outputs, a
batch dispatches each event, and an I/O error resets and returns to
scanning.  Parameter writes apply in any phase. -/
def step (c : Sys) (w : WEvent) : Sys :=
  match w with
  | .setDeadzone d => ⟨c.phase, { c.st with deadzone := d }⟩
  | .setVendor v => ⟨c.phase, { c.st with vendor := v }⟩
  | .setProduct p => ⟨c.phase, { c.st with product := p }⟩
  | .scan devs =>
    match c.phase with
    | .scanning =>
      match find_device c.st.vendor c.st.product devs with
      | none => ⟨.scanning, reset c.st⟩
      | some (_, table) =>
        ⟨.connected,
          { c.st with axis_info := table
                      pins := { c.st.pins with connected := true } }⟩
    | .connected => c
  | .timeout =>
    match c.phase with
    | .scanning => c
    | .connected => ⟨.connected, update_jog_outputs c.st⟩
  | .batch es =>
    match c.phase with
    | .scanning => c
    | .connected => ⟨.connected, es.foldl handle_event c.st⟩
  | .ioError =>
    match c.phase with
    | .scanning => c
    | .connected => ⟨.scanning, reset c.st⟩

/-- Model of `__init__`: all pins at defaults, deadzone 0.15, the identity filter
parameters as configured, empty axis cache, then `_reset`. -/
def initState (vid pid : ℤ) : ShimState :=
  reset
    { pins := defaultPins, deadzone := 15 / 100, vendor := vid, product := pid
      ilx := 0, ily := 0, iry := 0, irt := 0, axis_info := [] }

/-- The system as it starts `run`: scanning, freshly initialised. -/
def initSys (vid pid : ℤ) : Sys := ⟨.scanning, initState vid pid⟩

/-- Configurations reachable from startup under any stimulus sequence. -/
inductive Reachable (vid pid : ℤ) : Sys → Prop
  | init : Reachable vid pid (initSys vid pid)
  | next {c : Sys} (w : WEvent) : Reachable vid pid c → Reachable vid pid (step c w)

/-! ### Checked-division variants for the totality claim -/

/-- Division that signals (with `none`) instead of producing a junk value
when the divisor is zero. -/
def cdiv (a b : ℚ) : Option ℚ := if b = 0 then none else some (a / b)

/-- Variant of `_scale_axis` with every division checked. -/
def scale_axis_checked (table : List (Nat × ℤ × ℤ)) (code : Nat) (raw : ℤ) : Option ℚ :=
  match lookupAxis table code with
  | none => some 0
  | some (lo, hi) =>
    if hi = lo then some 0
    else (cdiv (2 * ((raw : ℚ) - (lo : ℚ))) ((hi : ℚ) - (lo : ℚ))).map (fun q => q - 1)

/-- Variant of `_scale_trigger` with every division checked. -/
def scale_trigger_checked (table : List (Nat × ℤ × ℤ)) (code : Nat) (raw : ℤ) : Option ℚ :=
  match lookupAxis table code with
  | none => some 0
  | some (lo, hi) =>
    if hi = lo then some 0
    else cdiv ((raw : ℚ) - (lo : ℚ)) ((hi : ℚ) - (lo : ℚ))

/-- Variant of `_apply_deadzone` with its division checked. -/
def apply_deadzone_checked (dz value : ℚ) : Option ℚ :=
  if |value| < dz then some 0
  else cdiv ((if value > 0 then (1 : ℚ) else -1) * (|value| - dz)) (1 - dz)

/-! ### Helper lemmas -/

/-- Unfolding `_scale_axis` on a known, non-degenerate axis. -/
lemma scale_axis_eq {table : List (Nat × ℤ × ℤ)} {code : Nat} {lo hi : ℤ}
    (h : lookupAxis table code = some (lo, hi)) (hne : hi ≠ lo) (raw : ℤ) :
    scale_axis table code raw =
      2 * ((raw : ℚ) - (lo : ℚ)) / ((hi : ℚ) - (lo : ℚ)) - 1 := by
  simp [scale_axis, h, hne]

/-- Unfolding `_scale_trigger` on a known, non-degenerate axis. -/
lemma scale_trigger_eq {table : List (Nat × ℤ × ℤ)} {code : Nat} {lo hi : ℤ}
    (h : lookupAxis table code = some (lo, hi)) (hne : hi ≠ lo) (raw : ℤ) :
    scale_trigger table code raw = ((raw : ℚ) - (lo : ℚ)) / ((hi : ℚ) - (lo : ℚ)) := by
  simp [scale_trigger, h, hne]

/-- Outside the deadzone the shaper is a two-sided linear ramp. -/
lemma apply_deadzone_eq {d : ℚ} (v : ℚ) (h : d ≤ |v|) :
    apply_deadzone d v = (if 0 < v then v - d else v + d) / (1 - d) := by
  unfold apply_deadzone
  rw [if_neg (not_lt.2 h)]
  by_cases hv : 0 < v
  · rw [if_pos hv, if_pos hv, abs_of_pos hv]
    ring
  · rw [if_neg hv, if_neg hv, abs_of_nonpos (not_lt.1 hv)]
    ring

/-- A sample concrete state used by witnesses. -/
def sampleState : ShimState :=
  { pins := defaultPins, deadzone := 15 / 100, vendor := 0, product := 0
    ilx := 1, ily := 0, iry := 0, irt := 0, axis_info := [] }

/-- A sample axis range table: `ABS_X` with device range [0, 255]. -/
def exTable : List (Nat × ℤ × ℤ) := [(ABS_X, (0, 255))]

/-- A trigger axis table used for the C8 counterexample: `ABS_RZ` with
device range [0, 255]. -/
def exTableRZ : List (Nat × ℤ × ℤ) := [(ABS_RZ, (0, 255))]

/-- A connected-session state with a populated axis range table, used to
show that `_reset` does not clear the table. -/
def s6 : ShimState :=
  { pins := defaultPins, deadzone := 15 / 100, vendor := 0, product := 0
    ilx := 1, ily := 0, iry := 0, irt := 1, axis_info := [(ABS_X, (0, 255))] }

/-- A connected-session state whose jog pins are stale: the stick is fully
deflected and the trigger squeezed (cached values 1), but the jog pins
still hold 0 — the situation right after an external deadzone write,
before any event or idle tick has recomputed the jog outputs. -/
def s10 : ShimState :=
  { pins := defaultPins, deadzone := 15 / 100, vendor := 0, product := 0
    ilx := 1, ily := 0, iry := 0, irt := 1, axis_info := [] }

/-- The two booleans of each hat axis are never simultaneously true. -/
def dpadExcl (p : PinState) : Prop :=
  ¬(p.left = true ∧ p.right = true) ∧ ¬(p.up = true ∧ p.down = true)

/-- The jog pins agree with what `_update_jog_outputs` would recompute
from the cached raw values and the live deadzone. -/
def jogConsistent (s : ShimState) : Prop :=
  s.pins.jog_x = apply_deadzone s.deadzone s.ilx * s.irt ∧
  s.pins.jog_y = apply_deadzone s.deadzone s.ily * s.irt ∧
  s.pins.jog_z = apply_deadzone s.deadzone s.iry * s.irt

/-- No device with a matching vendor is ever selected when the vendor
filter is nonzero. -/
lemma find_device_vendor_none (vid pid : ℤ) (devs : List RawDevice)
    (hv : vid ≠ 0) (h : ∀ dv ∈ devs, dv.vendor ≠ vid) :
    find_device vid pid devs = none := by
  induction devs with
  | nil => rfl
  | cons d rest ih =>
    have hd : d.vendor ≠ vid := h d (List.mem_cons_self d rest)
    have hrest : ∀ dv ∈ rest, dv.vendor ≠ vid := fun dv hm => h dv (List.mem_cons_of_mem d hm)
    unfold find_device
    by_cases ho : d.opens = false
    · rw [if_pos ho]
      exact ih hrest
    · rw [if_neg ho, if_pos ⟨hv, hd⟩]
      exact ih hrest

/-- The `BUTTON_MAP` dispatch never routes a key event to a d-pad direction pin. -/
lemma button_pin_update_dirs (p : PinState) (code : Nat) (b : Bool) :
    (button_pin_update p code b).left = p.left ∧
    (button_pin_update p code b).right = p.right ∧
    (button_pin_update p code b).up = p.up ∧
    (button_pin_update p code b).down = p.down := by
  unfold button_pin_update
  by_cases h1 : code = BTN_SOUTH
  · rw [if_pos h1]; exact ⟨rfl, rfl, rfl, rfl⟩
  rw [if_neg h1]
  by_cases h2 : code = BTN_EAST
  · rw [if_pos h2]; exact ⟨rfl, rfl, rfl, rfl⟩
  rw [if_neg h2]
  by_cases h3 : code = BTN_NORTH
  · rw [if_pos h3]; exact ⟨rfl, rfl, rfl, rfl⟩
  rw [if_neg h3]
  by_cases h4 : code = BTN_WEST
  · rw [if_pos h4]; exact ⟨rfl, rfl, rfl, rfl⟩
  rw [if_neg h4]
  by_cases h5 : code = BTN_TL
  · rw [if_pos h5]; exact ⟨rfl, rfl, rfl, rfl⟩
  rw [if_neg h5]
  by_cases h6 : code = BTN_TR
  · rw [if_pos h6]; exact ⟨rfl, rfl, rfl, rfl⟩
  rw [if_neg h6]
  by_cases h7 : code = BTN_SELECT
  · rw [if_pos h7]; exact ⟨rfl, rfl, rfl, rfl⟩
  rw [if_neg h7]
  by_cases h8 : code = BTN_START
  · rw [if_pos h8]; exact ⟨rfl, rfl, rfl, rfl⟩
  rw [if_neg h8]
  by_cases h9 : code = BTN_THUMBL
  · rw [if_pos h9]; exact ⟨rfl, rfl, rfl, rfl⟩
  rw [if_neg h9]
  by_cases h10 : code = BTN_THUMBR
  · rw [if_pos h10]; exact ⟨rfl, rfl, rfl, rfl⟩
  rw [if_neg h10]
  exact ⟨rfl, rfl, rfl, rfl⟩

/-- Dispatching one event preserves d-pad exclusivity. -/
lemma handle_event_dpadExcl (s : ShimState) (e : Ev) (h : dpadExcl s.pins) :
    dpadExcl (handle_event s e).pins := by
  cases e with
  | key code v =>
    have hb := button_pin_update_dirs s.pins code (v != 0)
    refine ⟨?_, ?_⟩
    · show ¬((button_pin_update s.pins code (v != 0)).left = true ∧
        (button_pin_update s.pins code (v != 0)).right = true)
      rw [hb.1, hb.2.1]
      exact h.1
    · show ¬((button_pin_update s.pins code (v != 0)).up = true ∧
        (button_pin_update s.pins code (v != 0)).down = true)
      rw [hb.2.2.1, hb.2.2.2]
      exact h.2
  | abs code v =>
    simp only [handle_event]
    by_cases h0 : code = ABS_X
    · rw [if_pos h0]; exact h
    rw [if_neg h0]
    by_cases h1 : code = ABS_Y
    · rw [if_pos h1]; exact h
    rw [if_neg h1]
    by_cases h2 : code = ABS_RX
    · rw [if_pos h2]; exact h
    rw [if_neg h2]
    by_cases h3 : code = ABS_RY
    · rw [if_pos h3]; exact h
    rw [if_neg h3]
    by_cases h4 : code = ABS_Z
    · rw [if_pos h4]; exact h
    rw [if_neg h4]
    by_cases h5 : code = ABS_RZ
    · rw [if_pos h5]; exact h
    rw [if_neg h5]
    by_cases h6 : code = ABS_HAT0X
    · rw [if_pos h6]
      refine ⟨?_, h.2⟩
      show ¬((v == -1) = true ∧ (v == 1) = true)
      rintro ⟨ha, hb⟩
      simp only [beq_iff_eq] at ha hb
      omega
    rw [if_neg h6]
    by_cases h7 : code = ABS_HAT0Y
    · rw [if_pos h7]
      refine ⟨h.1, ?_⟩
      show ¬((v == -1) = true ∧ (v == 1) = true)
      rintro ⟨ha, hb⟩
      simp only [beq_iff_eq] at ha hb
      omega
    rw [if_neg h7]
    exact h

/-- Folding a batch of events preserves d-pad exclusivity. -/
lemma foldl_handle_event_dpadExcl (es : List Ev) (s : ShimState)
    (h : dpadExcl s.pins) : dpadExcl (es.foldl handle_event s).pins := by
  induction es generalizing s with
  | nil => exact h
  | cons e rest ih => exact ih _ (handle_event_dpadExcl s e h)

/-- D-pad exclusivity holds in every reachable configuration. -/
lemma reachable_dpadExcl (vid pid : ℤ) (c : Sys) (h : Reachable vid pid c) :
    dpadExcl c.st.pins := by
  induction h with
  | init => constructor <;> simp [initSys, initState, reset, defaultPins]
  | @next c w hr ih =>
    cases w with
    | setDeadzone dz => exact ih
    | setVendor v => exact ih
    | setProduct p => exact ih
    | scan devs =>
      cases hph : c.phase with
      | scanning =>
        cases hf : find_device c.st.vendor c.st.product devs with
        | none =>
          simp only [step, hph, hf]
          constructor <;> simp [reset, defaultPins]
        | some devtable =>
          obtain ⟨dv, table⟩ := devtable
          simp only [step, hph, hf]
          exact ih
      | connected =>
        simp only [step, hph]
        exact ih
    | timeout =>
      cases hph : c.phase with
      | scanning =>
        simp only [step, hph]
        exact ih
      | connected =>
        simp only [step, hph]
        exact ih
    | batch es =>
      cases hph : c.phase with
      | scanning =>
        simp only [step, hph]
        exact ih
      | connected =>
        simp only [step, hph]
        exact foldl_handle_event_dpadExcl es c.st ih
    | ioError =>
      cases hph : c.phase with
      | scanning =>
        simp only [step, hph]
        exact ih
      | connected =>
        simp only [step, hph]
        constructor <;> simp [reset, defaultPins]

/-! ### Claims about the arithmetic core -/

/-- Claim C1: each jog output equals the deadzone-shaped cached stick value
multiplied by the cached right-trigger magnitude t ∈ [0,1]; t = 0 forces all
three jog outputs to exactly 0, and t = 1 with shaped stick value 1 yields
jog output exactly 1. -/
theorem C1_jog_mixer (s : ShimState) (h0 : 0 ≤ s.irt) (h1 : s.irt ≤ 1) :
    (update_jog_outputs s).pins.jog_x = apply_deadzone s.deadzone s.ilx * s.irt ∧
    (update_jog_outputs s).pins.jog_y = apply_deadzone s.deadzone s.ily * s.irt ∧
    (update_jog_outputs s).pins.jog_z = apply_deadzone s.deadzone s.iry * s.irt ∧
    (s.irt = 0 →
      (update_jog_outputs s).pins.jog_x = 0 ∧
      (update_jog_outputs s).pins.jog_y = 0 ∧
      (update_jog_outputs s).pins.jog_z = 0) ∧
    (s.irt = 1 → apply_deadzone s.deadzone s.ilx = 1 →
      (update_jog_outputs s).pins.jog_x = 1) := by
  refine ⟨rfl, rfl, rfl, ?_, ?_⟩
  · intro h
    simp [update_jog_outputs, h]
  · intro h hs
    simp [update_jog_outputs, h, hs]

/-- Witness for C1 at a concrete state with zero trigger. -/
theorem C1_jog_mixer_witness :
    (update_jog_outputs sampleState).pins.jog_x =
        apply_deadzone sampleState.deadzone sampleState.ilx * sampleState.irt ∧
    (update_jog_outputs sampleState).pins.jog_y =
        apply_deadzone sampleState.deadzone sampleState.ily * sampleState.irt ∧
    (update_jog_outputs sampleState).pins.jog_z =
        apply_deadzone sampleState.deadzone sampleState.iry * sampleState.irt ∧
    (sampleState.irt = 0 →
      (update_jog_outputs sampleState).pins.jog_x = 0 ∧
      (update_jog_outputs sampleState).pins.jog_y = 0 ∧
      (update_jog_outputs sampleState).pins.jog_z = 0) ∧
    (sampleState.irt = 1 → apply_deadzone sampleState.deadzone sampleState.ilx = 1 →
      (update_jog_outputs sampleState).pins.jog_x = 1) :=
  C1_jog_mixer sampleState (by decide) (by decide)

/-- Claim C3: on an axis code present in the range table with min ≠ max the
calibrator returns exactly the interpolation formula (bipolar for sticks,
unipolar for triggers); on an absent code, or when min = max, it returns
exactly 0. -/
theorem C3_axis_calibrator (table : List (Nat × ℤ × ℤ)) (code : Nat) (raw : ℤ) :
    (∀ lo hi : ℤ, lookupAxis table code = some (lo, hi) → lo ≠ hi →
      scale_axis table code raw =
          2 * ((raw : ℚ) - (lo : ℚ)) / ((hi : ℚ) - (lo : ℚ)) - 1 ∧
      scale_trigger table code raw = ((raw : ℚ) - (lo : ℚ)) / ((hi : ℚ) - (lo : ℚ))) ∧
    (lookupAxis table code = none →
      scale_axis table code raw = 0 ∧ scale_trigger table code raw = 0) ∧
    (∀ lo hi : ℤ, lookupAxis table code = some (lo, hi) → lo = hi →
      scale_axis table code raw = 0 ∧ scale_trigger table code raw = 0) := by
  refine ⟨?_, ?_, ?_⟩
  · intro lo hi h hne
    exact ⟨scale_axis_eq h (Ne.symm hne) raw, scale_trigger_eq h (Ne.symm hne) raw⟩
  · intro h
    constructor <;> simp [scale_axis, scale_trigger, h]
  · intro lo hi h heq
    constructor <;> simp [scale_axis, scale_trigger, h, heq]

/-- Witness for C3: ABS_X over [0, 255] at raw = 128 follows the exact
bipolar formula (the spec's midpoint scenario). -/
theorem C3_axis_calibrator_witness :
    scale_axis exTable ABS_X 128 =
        2 * ((128 : ℚ) - ((0 : ℤ) : ℚ)) / (((255 : ℤ) : ℚ) - ((0 : ℤ) : ℚ)) - 1 ∧
    scale_axis exTable ABS_X 128 = 1 / 255 :=
  ⟨((C3_axis_calibrator exTable ABS_X 128).1 0 255 rfl (by decide)).1,
   by
    rw [@scale_axis_eq exTable ABS_X 0 255 rfl (by decide) 128]
    push_cast
    norm_num⟩

/-- Claim C4: for a calibrated value v and a deadzone fraction d ∈ [0,1),
the shaper returns 0 when |v| < d and sign(v)·(|v|−d)/(1−d) otherwise; the
output at v = d is 0, the output at v = 1 is 1, and the output is monotone
in v wherever |v| ≥ d. -/
theorem C4_deadzone_shaper (d v : ℚ) (h0 : 0 ≤ d) (h1 : d < 1) :
    (|v| < d → apply_deadzone d v = 0) ∧
    (d ≤ |v| →
      apply_deadzone d v = (if 0 < v then (1 : ℚ) else -1) * (|v| - d) / (1 - d)) ∧
    apply_deadzone d d = 0 ∧
    apply_deadzone d 1 = 1 ∧
    (∀ v₁ v₂ : ℚ, d ≤ |v₁| → d ≤ |v₂| → v₁ ≤ v₂ →
      apply_deadzone d v₁ ≤ apply_deadzone d v₂) := by
  have hd : (0 : ℚ) < 1 - d := by linarith
  refine ⟨?_, ?_, ?_, ?_, ?_⟩
  · intro h
    simp [apply_deadzone, h]
  · intro h
    unfold apply_deadzone
    rw [if_neg (not_lt.2 h)]
  · rw [apply_deadzone_eq d (by rw [abs_of_nonneg h0])]
    by_cases hdp : 0 < d
    · rw [if_pos hdp, sub_self, zero_div]
    · have hz : d = 0 := le_antisymm (not_lt.1 hdp) h0
      rw [if_neg hdp, hz]
      norm_num
  · rw [apply_deadzone_eq 1 (by rw [abs_one]; exact le_of_lt h1)]
    rw [if_pos one_pos, div_self (ne_of_gt hd)]
  · intro v₁ v₂ hv₁ hv₂ hle
    rw [apply_deadzone_eq v₁ hv₁, apply_deadzone_eq v₂ hv₂, div_le_div_right hd]
    rcases lt_or_le 0 v₁ with a | a <;> rcases lt_or_le 0 v₂ with b | b
    · rw [if_pos a, if_pos b]
      linarith
    · exfalso
      linarith
    · rw [if_neg (not_lt.2 a), if_pos b]
      rw [abs_of_nonpos a] at hv₁
      rw [abs_of_pos b] at hv₂
      linarith
    · rw [if_neg (not_lt.2 a), if_neg (not_lt.2 b)]
      linarith

/-- Witness for C4 at d = 1/5, v = 1/2: the deadzone branch formula, the
full-scale point, and the spec's scenario value 0.5 ↦ 0.375. -/
theorem C4_deadzone_shaper_witness :
    apply_deadzone (1 / 5) (1 / 2) =
        (if (0 : ℚ) < 1 / 2 then (1 : ℚ) else -1) * (|(1 : ℚ) / 2| - 1 / 5) / (1 - 1 / 5) ∧
    apply_deadzone (1 / 5) 1 = 1 ∧
    apply_deadzone (1 / 5) (1 / 2) = 375 / 1000 :=
  ⟨(C4_deadzone_shaper (1 / 5) (1 / 2) (by norm_num) (by norm_num)).2.1
      (by rw [abs_of_pos (by norm_num : (0 : ℚ) < 1 / 2)]; norm_num),
   (C4_deadzone_shaper (1 / 5) (1 / 2) (by norm_num) (by norm_num)).2.2.2.1,
   by
    rw [@apply_deadzone_eq (1 / 5) (1 / 2)
        (by rw [abs_of_pos (by norm_num : (0 : ℚ) < 1 / 2)]; norm_num),
      if_pos (by norm_num : (0 : ℚ) < 1 / 2)]
    norm_num⟩

/-- Claim C9: the scaling and shaping operations are total — every division
they perform has a nonzero divisor (degenerate and unknown axes are guarded,
and 1 − d ≠ 0 when d ∈ [0,1)), so the checked variants always return a
value, equal to the unchecked one. -/
theorem C9_totality (table : List (Nat × ℤ × ℤ)) (code : Nat) (raw : ℤ)
    (d v : ℚ) (h0 : 0 ≤ d) (h1 : d < 1) :
    scale_axis_checked table code raw = some (scale_axis table code raw) ∧
    scale_trigger_checked table code raw = some (scale_trigger table code raw) ∧
    apply_deadzone_checked d v = some (apply_deadzone d v) := by
  have hd : (1 : ℚ) - d ≠ 0 := by
    intro h
    have : d = 1 := by linarith
    linarith
  refine ⟨?_, ?_, ?_⟩
  · unfold scale_axis_checked scale_axis
    cases h : lookupAxis table code with
    | none => rfl
    | some info =>
      obtain ⟨lo, hi⟩ := info
      by_cases he : hi = lo
      · simp [he]
      · have hcast : (hi : ℚ) - (lo : ℚ) ≠ 0 := by
          rw [sub_ne_zero]
          exact_mod_cast he
        simp [he, cdiv, hcast, mul_div_assoc]
  · unfold scale_trigger_checked scale_trigger
    cases h : lookupAxis table code with
    | none => rfl
    | some info =>
      obtain ⟨lo, hi⟩ := info
      by_cases he : hi = lo
      · simp [he]
      · have hcast : (hi : ℚ) - (lo : ℚ) ≠ 0 := by
          rw [sub_ne_zero]
          exact_mod_cast he
        simp [he, cdiv, hcast]
  · unfold apply_deadzone_checked apply_deadzone
    by_cases hv : |v| < d
    · simp [hv]
    · simp [hv, cdiv, hd, mul_div_assoc]

/-- Witness for C9 at a concrete table, axis, raw value and deadzone. -/
theorem C9_totality_witness :
    scale_axis_checked exTable ABS_X 128 = some (scale_axis exTable ABS_X 128) ∧
    scale_trigger_checked exTable ABS_X 128 = some (scale_trigger exTable ABS_X 128) ∧
    apply_deadzone_checked (15 / 100) (1 / 2) = some (apply_deadzone (15 / 100) (1 / 2)) :=
  C9_totality exTable ABS_X 128 (15 / 100) (1 / 2) (by norm_num) (by norm_num)

/-! ### Calibration range and monotonicity (claim C8) -/


/-- Counterexample to C8 as stated: the claim asserts the unipolar output
lies in [0,1] for ALL raw readings, but for a raw reading below the
device minimum the code returns a negative value (raw = −1 on range
[0,255] gives −1/255). -/
theorem C8_counterexample : scale_trigger exTableRZ ABS_RZ (-1) < 0 := by
  rw [@scale_trigger_eq exTableRZ ABS_RZ 0 255 rfl (by decide) (-1)]
  push_cast
  norm_num

/-- Claim C8 (amended: the unipolar bound holds for raw readings within
[min,max], as for the bipolar one, not for all raw readings): on a known
axis with min < max the bipolar output is within [-1,1] on [min,max] and
monotone, with min ↦ −1, max ↦ +1 and the exact midpoint (2r = min+max)
↦ 0; the unipolar output is within [0,1] on [min,max], with min ↦ 0 and
max ↦ 1. -/
theorem C8_calibration_range (table : List (Nat × ℤ × ℤ)) (code : Nat) (lo hi : ℤ)
    (hfind : lookupAxis table code = some (lo, hi)) (hlt : lo < hi) :
    (∀ r : ℤ, lo ≤ r → r ≤ hi →
      -1 ≤ scale_axis table code r ∧ scale_axis table code r ≤ 1) ∧
    (∀ r₁ r₂ : ℤ, r₁ ≤ r₂ → scale_axis table code r₁ ≤ scale_axis table code r₂) ∧
    scale_axis table code lo = -1 ∧
    scale_axis table code hi = 1 ∧
    (∀ r : ℤ, 2 * r = lo + hi → scale_axis table code r = 0) ∧
    (∀ r : ℤ, lo ≤ r → r ≤ hi →
      0 ≤ scale_trigger table code r ∧ scale_trigger table code r ≤ 1) ∧
    scale_trigger table code lo = 0 ∧
    scale_trigger table code hi = 1 := by
  have hne : hi ≠ lo := (ne_of_lt hlt).symm
  have hpos : (0 : ℚ) < (hi : ℚ) - (lo : ℚ) := by
    rw [sub_pos]
    exact_mod_cast hlt
  refine ⟨?_, ?_, ?_, ?_, ?_, ?_, ?_, ?_⟩
  · intro r h1 h2
    rw [scale_axis_eq hfind hne r]
    have c1 : (lo : ℚ) ≤ (r : ℚ) := by exact_mod_cast h1
    have c2 : (r : ℚ) ≤ (hi : ℚ) := by exact_mod_cast h2
    constructor
    · have : 0 ≤ 2 * ((r : ℚ) - (lo : ℚ)) / ((hi : ℚ) - (lo : ℚ)) :=
        div_nonneg (by linarith) (le_of_lt hpos)
      linarith
    · have : 2 * ((r : ℚ) - (lo : ℚ)) / ((hi : ℚ) - (lo : ℚ)) ≤ 2 := by
        rw [div_le_iff₀ hpos]
        linarith
      linarith
  · intro r₁ r₂ hr
    rw [scale_axis_eq hfind hne r₁, scale_axis_eq hfind hne r₂]
    have cr : (r₁ : ℚ) ≤ (r₂ : ℚ) := by exact_mod_cast hr
    have := (div_le_div_iff_of_pos_right hpos).mpr
      (by linarith : 2 * ((r₁ : ℚ) - (lo : ℚ)) ≤ 2 * ((r₂ : ℚ) - (lo : ℚ)))
    linarith
  · rw [scale_axis_eq hfind hne lo, sub_self, mul_zero, zero_div]
    norm_num
  · rw [scale_axis_eq hfind hne hi, mul_div_assoc, div_self (ne_of_gt hpos)]
    norm_num
  · intro r hmid
    rw [scale_axis_eq hfind hne r]
    have hc : 2 * ((r : ℚ) - (lo : ℚ)) = (hi : ℚ) - (lo : ℚ) := by
      have h2 : ((2 * r : ℤ) : ℚ) = ((lo + hi : ℤ) : ℚ) := by exact_mod_cast hmid
      push_cast at h2
      linarith
    rw [hc, div_self (ne_of_gt hpos), sub_self]
  · intro r h1 h2
    rw [scale_trigger_eq hfind hne r]
    have c1 : (lo : ℚ) ≤ (r : ℚ) := by exact_mod_cast h1
    have c2 : (r : ℚ) ≤ (hi : ℚ) := by exact_mod_cast h2
    exact ⟨div_nonneg (by linarith) (le_of_lt hpos),
      (div_le_one hpos).mpr (by linarith)⟩
  · rw [scale_trigger_eq hfind hne lo, sub_self, zero_div]
  · rw [scale_trigger_eq hfind hne hi, div_self (ne_of_gt hpos)]

/-- Witness for the amended C8 on the range [0,255]: the endpoint values
of both scalings. -/
theorem C8_calibration_range_witness :
    scale_axis exTable ABS_X 0 = -1 ∧
    scale_axis exTable ABS_X 255 = 1 ∧
    scale_trigger exTable ABS_X 0 = 0 ∧
    scale_trigger exTable ABS_X 255 = 1 :=
  ⟨(C8_calibration_range exTable ABS_X 0 255 rfl (by decide)).2.2.1,
   (C8_calibration_range exTable ABS_X 0 255 rfl (by decide)).2.2.2.1,
   (C8_calibration_range exTable ABS_X 0 255 rfl (by decide)).2.2.2.2.2.2.1,
   (C8_calibration_range exTable ABS_X 0 255 rfl (by decide)).2.2.2.2.2.2.2⟩

/-! ### Disconnect behaviour (claim C6) -/


/-- Counterexample to C6 as stated: after an I/O failure while connected,
and before any discovery attempt, the cached axis range table is NOT
reset — `_reset` leaves `_axis_info` untouched. -/
theorem C6_counterexample :
    (step ⟨.connected, s6⟩ .ioError).st.axis_info = [(ABS_X, ((0 : ℤ), (255 : ℤ)))] ∧
    [(ABS_X, ((0 : ℤ), (255 : ℤ)))] ≠ ([] : List (Nat × ℤ × ℤ)) :=
  ⟨rfl, by decide⟩

/-- Claim C6 (amended: on disconnect or read failure the device handle is
abandoned and the outputs and last-known raw stick values are zeroed, but
the cached Axis Range Table is retained unchanged; it is only replaced,
fresh from the device capabilities, on the next successful discovery). -/
theorem C6_session_teardown (s : ShimState) :
    step ⟨.connected, s⟩ .ioError = ⟨.scanning, reset s⟩ ∧
    (reset s).pins = defaultPins ∧
    (reset s).ilx = 0 ∧ (reset s).ily = 0 ∧ (reset s).iry = 0 ∧ (reset s).irt = 0 ∧
    (reset s).axis_info = s.axis_info ∧
    (∀ (devs : List RawDevice) (d : RawDevice) (table : List (Nat × ℤ × ℤ)),
      find_device s.vendor s.product devs = some (d, table) →
      (step ⟨.scanning, s⟩ (.scan devs)).st.axis_info = table) := by
  refine ⟨rfl, rfl, rfl, rfl, rfl, rfl, rfl, ?_⟩
  intro devs d table hf
  simp [step, hf]

/-- Witness for C6 at a concrete state and a concrete matching device. -/
theorem C6_session_teardown_witness :
    (step ⟨.connected, s6⟩ .ioError = ⟨.scanning, reset s6⟩) ∧
    (step ⟨.scanning, s6⟩
        (.scan [⟨true, 1118, 654, some [(ABS_X, (0, 255))]⟩])).st.axis_info =
      [(ABS_X, ((0 : ℤ), (255 : ℤ)))] :=
  ⟨(C6_session_teardown s6).1,
   (C6_session_teardown s6).2.2.2.2.2.2.2
     [⟨true, 1118, 654, some [(ABS_X, (0, 255))]⟩]
     ⟨true, 1118, 654, some [(ABS_X, (0, 255))]⟩
     [(ABS_X, (0, 255))] rfl⟩

/-! ### Discovery policy (claim C7) -/


/-- Claim C7: discovery skips devices that fail to open, devices missing a
nonzero vendor/product filter (a zero filter imposes no constraint), and
devices lacking absolute-axis capability; it selects the first device
passing all active criteria; and when a nonzero vendor filter matches no
device, discovery returns none, the manager stays in Scanning, and the
connection-status pin stays false. -/
theorem C7_discovery (vid pid : ℤ) (d : RawDevice) (rest devs : List RawDevice)
    (s : ShimState) :
    (d.opens = false → find_device vid pid (d :: rest) = find_device vid pid rest) ∧
    (vid ≠ 0 → d.vendor ≠ vid →
      find_device vid pid (d :: rest) = find_device vid pid rest) ∧
    (pid ≠ 0 → d.product ≠ pid →
      find_device vid pid (d :: rest) = find_device vid pid rest) ∧
    (d.caps_abs = none → find_device vid pid (d :: rest) = find_device vid pid rest) ∧
    (∀ axes, d.opens = true → (vid = 0 ∨ d.vendor = vid) → (pid = 0 ∨ d.product = pid) →
      d.caps_abs = some axes → find_device vid pid (d :: rest) = some (d, axes)) ∧
    (vid ≠ 0 → (∀ dv ∈ devs, dv.vendor ≠ vid) → find_device vid pid devs = none) ∧
    (s.vendor ≠ 0 → (∀ dv ∈ devs, dv.vendor ≠ s.vendor) →
      (step ⟨.scanning, s⟩ (.scan devs)).phase = .scanning ∧
      (step ⟨.scanning, s⟩ (.scan devs)).st.pins.connected = false) := by
  refine ⟨?_, ?_, ?_, ?_, ?_, ?_, ?_⟩
  · intro ho
    conv_lhs => unfold find_device
    rw [if_pos ho]
  · intro hv hd
    conv_lhs => unfold find_device
    by_cases ho : d.opens = false
    · rw [if_pos ho]
    · rw [if_neg ho, if_pos ⟨hv, hd⟩]
  · intro hp hd
    conv_lhs => unfold find_device
    by_cases ho : d.opens = false
    · rw [if_pos ho]
    · rw [if_neg ho]
      by_cases hv : vid ≠ 0 ∧ d.vendor ≠ vid
      · rw [if_pos hv]
      · rw [if_neg hv, if_pos ⟨hp, hd⟩]
  · intro hc
    conv_lhs => unfold find_device
    by_cases ho : d.opens = false
    · rw [if_pos ho]
    · rw [if_neg ho]
      by_cases hv : vid ≠ 0 ∧ d.vendor ≠ vid
      · rw [if_pos hv]
      · rw [if_neg hv]
        by_cases hp : pid ≠ 0 ∧ d.product ≠ pid
        · rw [if_pos hp]
        · rw [if_neg hp, hc]
  · intro axes ho hv hp hc
    conv_lhs => unfold find_device
    rw [if_neg (by simp [ho])]
    rw [if_neg (by rcases hv with h | h <;> simp [h])]
    rw [if_neg (by rcases hp with h | h <;> simp [h])]
    rw [hc]
  · exact find_device_vendor_none vid pid devs
  · intro hv h
    have hf : find_device s.vendor s.product devs = none :=
      find_device_vendor_none s.vendor s.product devs hv h
    constructor <;> simp [step, hf, reset, defaultPins]

/-- Witness for C7: a nonzero vendor filter (7) matching no enumerated
device leaves the manager scanning with the connection pin false. -/
theorem C7_discovery_witness :
    (step ⟨.scanning, { s6 with vendor := 7 }⟩
        (.scan [⟨true, 5, 9, some [(ABS_X, (0, 255))]⟩])).phase = .scanning ∧
    (step ⟨.scanning, { s6 with vendor := 7 }⟩
        (.scan [⟨true, 5, 9, some [(ABS_X, (0, 255))]⟩])).st.pins.connected = false :=
  (C7_discovery 7 0 ⟨true, 5, 9, some [(ABS_X, (0, 255))]⟩ []
      [⟨true, 5, 9, some [(ABS_X, (0, 255))]⟩] { s6 with vendor := 7 }).2.2.2.2.2.2
    (by decide) (by decide)

/-! ### Safe defaults while disconnected (claim C2) -/

/-- Claim C2: whenever no device is connected — at startup, while Scanning,
and after any I/O failure while Connected but before the next discovery
attempt — every published output pin (all floats and booleans, including
the connection-status pin) holds its safe default 0.0/false. -/
theorem C2_safe_defaults (vid pid : ℤ) (c : Sys) (h : Reachable vid pid c)
    (hp : c.phase = Phase.scanning) : c.st.pins = defaultPins := by
  revert hp
  induction h with
  | init =>
    intro _
    rfl
  | @next c w hr ih =>
    intro hp
    cases w with
    | setDeadzone dz =>
      simp only [step] at hp ⊢
      exact ih hp
    | setVendor v =>
      simp only [step] at hp ⊢
      exact ih hp
    | setProduct p =>
      simp only [step] at hp ⊢
      exact ih hp
    | scan devs =>
      cases hph : c.phase with
      | scanning =>
        cases hf : find_device c.st.vendor c.st.product devs with
        | none =>
          simp only [step, hph, hf]
          rfl
        | some devtable =>
          obtain ⟨dv, table⟩ := devtable
          simp only [step, hph, hf] at hp
          exact Phase.noConfusion hp
      | connected =>
        simp only [step, hph] at hp
        exact Phase.noConfusion hp
    | timeout =>
      cases hph : c.phase with
      | scanning =>
        simp only [step, hph]
        exact ih hph
      | connected =>
        simp only [step, hph] at hp
        exact Phase.noConfusion hp
    | batch es =>
      cases hph : c.phase with
      | scanning =>
        simp only [step, hph]
        exact ih hph
      | connected =>
        simp only [step, hph] at hp
        exact Phase.noConfusion hp
    | ioError =>
      cases hph : c.phase with
      | scanning =>
        simp only [step, hph]
        exact ih hph
      | connected =>
        simp only [step, hph]
        rfl

/-- Witness for C2 at the startup configuration. -/
theorem C2_safe_defaults_witness : (initSys 0 0).st.pins = defaultPins :=
  C2_safe_defaults 0 0 (initSys 0 0) Reachable.init rfl

/-! ### D-pad exclusivity (claim C5) -/






/-- Claim C5: for each hat axis at most one of its two mapped booleans is
true in any reachable configuration; reporting +1/−1 sets exactly one of
the pair true and the other false, and reporting the neutral value 0
clears both. -/
theorem C5_dpad_exclusivity (vid pid : ℤ) (c : Sys) (h : Reachable vid pid c) :
    (¬(c.st.pins.left = true ∧ c.st.pins.right = true) ∧
     ¬(c.st.pins.up = true ∧ c.st.pins.down = true)) ∧
    (∀ v : ℤ,
      (handle_event c.st (.abs ABS_HAT0X v)).pins.right = (v == 1) ∧
      (handle_event c.st (.abs ABS_HAT0X v)).pins.left = (v == -1) ∧
      (handle_event c.st (.abs ABS_HAT0Y v)).pins.down = (v == 1) ∧
      (handle_event c.st (.abs ABS_HAT0Y v)).pins.up = (v == -1) ∧
      (v = 0 →
        (handle_event c.st (.abs ABS_HAT0X v)).pins.right = false ∧
        (handle_event c.st (.abs ABS_HAT0X v)).pins.left = false ∧
        (handle_event c.st (.abs ABS_HAT0Y v)).pins.down = false ∧
        (handle_event c.st (.abs ABS_HAT0Y v)).pins.up = false)) := by
  refine ⟨reachable_dpadExcl vid pid c h, ?_⟩
  intro v
  refine ⟨rfl, rfl, rfl, rfl, ?_⟩
  intro hv
  subst hv
  exact ⟨rfl, rfl, rfl, rfl⟩

/-- Witness for C5 at the startup configuration with a concrete press and
release of the horizontal hat axis. -/
theorem C5_dpad_exclusivity_witness :
    ¬((initSys 0 0).st.pins.left = true ∧ (initSys 0 0).st.pins.right = true) ∧
    (handle_event (initSys 0 0).st (.abs ABS_HAT0X 1)).pins.right = ((1 : ℤ) == 1) ∧
    (handle_event (initSys 0 0).st (.abs ABS_HAT0X 1)).pins.left = ((1 : ℤ) == -1) ∧
    (handle_event (initSys 0 0).st (.abs ABS_HAT0X 0)).pins.right = false ∧
    (handle_event (initSys 0 0).st (.abs ABS_HAT0X 0)).pins.left = false :=
  ⟨(C5_dpad_exclusivity 0 0 (initSys 0 0) Reachable.init).1.1,
   ((C5_dpad_exclusivity 0 0 (initSys 0 0) Reachable.init).2 1).1,
   ((C5_dpad_exclusivity 0 0 (initSys 0 0) Reachable.init).2 1).2.1,
   (((C5_dpad_exclusivity 0 0 (initSys 0 0) Reachable.init).2 0).2.2.2.2 rfl).1,
   (((C5_dpad_exclusivity 0 0 (initSys 0 0) Reachable.init).2 0).2.2.2.2 rfl).2.1⟩

/-! ### Jog outputs depend only on the cached stick/trigger state (claim C10) -/


/-- Counterexample to claim C10 as stated: an `ABS_RX` (or `ABS_Z`) event
does not leave the jog outputs untouched — it triggers the unconditional
jog recompute (line 241), so at a state whose jog pins are stale with
respect to the live deadzone and the cached stick/trigger values, the
event rewrites `jog_x` from 0 to 1. -/
theorem C10_counterexample :
    (handle_event s10 (.abs ABS_RX 5)).pins.jog_x ≠ s10.pins.jog_x ∧
    (handle_event s10 (.abs ABS_Z 5)).pins.jog_x ≠ s10.pins.jog_x := by
  have h1 : apply_deadzone (15 / 100 : ℚ) 1 = 1 := by
    rw [@apply_deadzone_eq (15 / 100) 1 (by rw [abs_one]; norm_num),
      if_pos one_pos]
    norm_num
  constructor
  · show apply_deadzone (15 / 100 : ℚ) 1 * 1 ≠ (0 : ℚ)
    rw [h1]
    norm_num
  · show apply_deadzone (15 / 100 : ℚ) 1 * 1 ≠ (0 : ℚ)
    rw [h1]
    norm_num

/-- Claim C10 (amended: an `ABS_RX` or `ABS_Z` event also triggers the
jog recompute from the cached values and the live deadzone, so it can
rewrite stale jog pins after an external deadzone write; but it never
changes the recompute's inputs — hence at any state whose jog pins
already agree with that recompute, an `ABS_RX` event changes only the
`rx` pin and an `ABS_Z` event only the `lt` pin, leaving every jog
output unchanged; and the jog outputs are a function only of the cached
left-stick X/Y, right-stick Y and right-trigger values plus the
deadzone). -/
theorem C10_jog_noninterference (s₁ s₂ : ShimState) (v : ℤ)
    (hc : jogConsistent s₁)
    (hx : s₁.ilx = s₂.ilx) (hy : s₁.ily = s₂.ily) (hr : s₁.iry = s₂.iry)
    (ht : s₁.irt = s₂.irt) (hd : s₁.deadzone = s₂.deadzone) :
    handle_event s₁ (.abs ABS_RX v) =
      { s₁ with pins := { s₁.pins with rx := scale_axis s₁.axis_info ABS_RX v } } ∧
    handle_event s₁ (.abs ABS_Z v) =
      { s₁ with pins := { s₁.pins with lt := scale_trigger s₁.axis_info ABS_Z v } } ∧
    (update_jog_outputs s₁).pins.jog_x = (update_jog_outputs s₂).pins.jog_x ∧
    (update_jog_outputs s₁).pins.jog_y = (update_jog_outputs s₂).pins.jog_y ∧
    (update_jog_outputs s₁).pins.jog_z = (update_jog_outputs s₂).pins.jog_z := by
  obtain ⟨h1, h2, h3⟩ := hc
  refine ⟨?_, ?_, ?_, ?_, ?_⟩
  · ext <;> first | rfl | exact h1.symm | exact h2.symm | exact h3.symm
  · ext <;> first | rfl | exact h1.symm | exact h2.symm | exact h3.symm
  · show apply_deadzone s₁.deadzone s₁.ilx * s₁.irt =
      apply_deadzone s₂.deadzone s₂.ilx * s₂.irt
    rw [hx, hd, ht]
  · show apply_deadzone s₁.deadzone s₁.ily * s₁.irt =
      apply_deadzone s₂.deadzone s₂.ily * s₂.irt
    rw [hy, hd, ht]
  · show apply_deadzone s₁.deadzone s₁.iry * s₁.irt =
      apply_deadzone s₂.deadzone s₂.iry * s₂.irt
    rw [hr, hd, ht]

/-- Witness for C10 at a concrete consistent state and event value. -/
theorem C10_jog_noninterference_witness :
    handle_event sampleState (.abs ABS_RX 5) =
      { sampleState with pins :=
        { sampleState.pins with rx := scale_axis sampleState.axis_info ABS_RX 5 } } ∧
    handle_event sampleState (.abs ABS_Z 5) =
      { sampleState with pins :=
        { sampleState.pins with lt := scale_trigger sampleState.axis_info ABS_Z 5 } } :=
  ⟨(C10_jog_noninterference sampleState sampleState 5
      (by refine ⟨?_, ?_, ?_⟩ <;> simp [sampleState, defaultPins])
      rfl rfl rfl rfl rfl).1,
   (C10_jog_noninterference sampleState sampleState 5
      (by refine ⟨?_, ?_, ?_⟩ <;> simp [sampleState, defaultPins])
      rfl rfl rfl rfl rfl).2.1⟩

end GamepadShim
